import Mathlib

/-!
Verification development for the authenticated HTTP client of the
pointwallet frontend (src/lib/api.ts).  The TypeScript client is shallowly
embedded: the cookie-backed session store becomes an explicit record, the
axios interceptors become pure functions over a request/state record, and
network effects are supplied as oracle parameters.
-/

namespace PointWallet

/-- The cookie jar backing the session store.  Each field models one cookie:
`some s` means the cookie is present with value `s` (possibly the empty
string), `none` means the cookie is absent. -/
structure CookieJar where
  access_token : Option String
  refresh_token : Option String
deriving Repr, DecidableEq

/-- The empty jar: process start, no session. -/
def emptyJar : CookieJar := ⟨none, none⟩

/-- Models the JavaScript `x || null` coercion applied to a cookie read:
an absent cookie and an empty-string cookie both read as null. -/
def orNull : Option String → Option String
  | some s => if s = "" then none else some s
  | none => none

/-- `getAccessToken` of the client: `Cookies.get of access_token || null`. -/
def getAccessToken (jar : CookieJar) : Option String :=
  orNull jar.access_token

/-- `getRefreshToken` of the client: `Cookies.get of refresh_token || null`. -/
def getRefreshToken (jar : CookieJar) : Option String :=
  orNull jar.refresh_token

/-- `setTokens` of the client: sets both cookies (expirations are handled by
the cookie layer and are not modelled). -/
def setTokens (accessToken refreshToken : String) (jar : CookieJar) : CookieJar :=
  { jar with access_token := some accessToken, refresh_token := some refreshToken }

/-- `clearTokens` of the client: removes both cookies. -/
def clearTokens (_jar : CookieJar) : CookieJar :=
  ⟨none, none⟩

/-- `logout` of the client: just `clearTokens`. -/
def logout (jar : CookieJar) : CookieJar :=
  clearTokens jar

/-- Errors that `refreshToken` can produce: the thrown
"No refresh token available" error, or the propagated rejection of the
refresh network request. -/
inductive RefreshError where
  | noRefreshToken
  | refreshRejected
deriving Repr, DecidableEq

/-- Oracle outcome for the refresh POST to /auth/token/refresh/. -/
inductive RefreshNet where
  | success (newAccess : String)
  | failure
deriving Repr, DecidableEq

/-- The observable result of one `refreshToken` run: its outcome, the jar
afterwards, and how many network requests it issued. -/
structure RefreshRun where
  outcome : Except RefreshError Unit
  jar : CookieJar
  netRequests : Nat
deriving Repr

/-- Oracle form of `refreshToken` of the client.  Reads the refresh
cookie; if absent it throws without touching the network; otherwise it
POSTs (outcome given by the oracle `net`), and on success re-reads the
refresh cookie and, when that read is non-null, stores the new access
token next to it via `setTokens`.  The oracle stands for the completed
POST, so this form is adequate for the no-token branch, for the success
branch, and for rejections that pass the response interceptor through
unchanged (non-401 errors); in the source the POST travels through the
intercepted client itself, and a 401-status rejection re-enters the
interceptor instead of surfacing here — that path is modelled faithfully
by `refreshTokenFull` below. -/
def refreshToken (net : RefreshNet) (jar : CookieJar) : RefreshRun :=
  match getRefreshToken jar with
  | none => ⟨.error .noRefreshToken, jar, 0⟩
  | some _ =>
    match net with
    | .failure => ⟨.error .refreshRejected, jar, 1⟩
    | .success newAccessToken =>
      match getRefreshToken jar with
      | some currentRefreshToken =>
          ⟨.ok (), setTokens newAccessToken currentRefreshToken jar, 1⟩
      | none => ⟨.ok (), jar, 1⟩

/-- Request headers: the Authorization header is modelled explicitly, all
other headers as an association list left untouched by the client core. -/
structure Headers where
  authorization : Option String
  contentType : Option String
  rest : List (String × String)
deriving Repr, DecidableEq

/-- An axios request config: method, url, the mutable underscore-retry flag
set by the response interceptor, and the headers. -/
structure RequestConfig where
  method : String
  url : String
  retry : Bool
  headers : Headers
deriving Repr, DecidableEq

/-- A successful HTTP response (body abstracted). -/
structure Response where
  status : Nat
  body : String
deriving Repr, DecidableEq

/-- An axios error as seen by the response interceptor: the optional HTTP
status of the error response and the config of the request that failed. -/
structure AxiosError where
  status : Option Nat
  config : RequestConfig
deriving Repr, DecidableEq

/-- Oracle outcome of one raw network send. -/
inductive NetOutcome where
  | ok (resp : Response)
  | err (status : Option Nat)
deriving Repr, DecidableEq

/-- What a dispatch rejects with: an HTTP error, or (from the 401 catch
branch) the propagated refresh error. -/
inductive Rejection where
  | http (e : AxiosError)
  | refresh (e : RefreshError)
deriving Repr, DecidableEq

/-- Result of a full client dispatch: resolved response or rejection. -/
inductive DispatchResult where
  | ok (resp : Response)
  | err (r : Rejection)
deriving Repr, DecidableEq

/-- Observable client state threaded through a dispatch: the cookie jar,
counters for refresh invocations, refresh network requests and
resubmissions of an original request, and the value assigned to
window.location.href, if any. -/
structure ClientState where
  jar : CookieJar
  refreshCalls : Nat
  refreshNetRequests : Nat
  resubmissions : Nat
  locationHref : Option String
deriving Repr, DecidableEq

/-- Models the JavaScript template interpolation of a string-or-null token
into the Bearer header: null stringifies to the literal text null. -/
def tokenToString : Option String → String
  | some t => t
  | none => "null"

/-- The request interceptor: reads the access token and, when it is
non-null, sets the Authorization header to Bearer plus the token;
otherwise the config passes through unmodified. -/
def requestInterceptor (jar : CookieJar) (config : RequestConfig) : RequestConfig :=
  match getAccessToken jar with
  | some token =>
      { config with
        headers := { config.headers with authorization := some ("Bearer " ++ token) } }
  | none => config

/-- The error branch of the response interceptor, parameterised by the
resubmission executor.  On a 401 whose config has the retry flag unset, it
sets the flag, runs `refreshToken`; on refresh success it re-reads the
access token, overwrites the Authorization header and resubmits; on
refresh failure it logs out, navigates to /login and rejects with the
refresh error.  Every other error is rejected unchanged. -/
def handle401
    (resubmit : ClientState → RequestConfig → DispatchResult × ClientState)
    (refreshNet : RefreshNet) (st : ClientState) (error : AxiosError) :
    DispatchResult × ClientState :=
  if error.status = some 401 ∧ error.config.retry = false then
    let originalRequest := { error.config with retry := true }
    let rr := refreshToken refreshNet st.jar
    let st := { st with
      jar := rr.jar
      refreshCalls := st.refreshCalls + 1
      refreshNetRequests := st.refreshNetRequests + rr.netRequests }
    match rr.outcome with
    | .ok _ =>
        let token := getAccessToken st.jar
        let originalRequest := { originalRequest with
          headers := { originalRequest.headers with
            authorization := some ("Bearer " ++ tokenToString token) } }
        resubmit { st with resubmissions := st.resubmissions + 1 } originalRequest
    | .error refreshError =>
        (.err (.refresh refreshError),
         { st with jar := logout st.jar, locationHref := some "/login" })
  else
    (.err (.http error), st)

/-- One full client dispatch: the request interceptor stamps the config,
the raw send happens (oracle `net`), a success resolves directly, and an
error goes through `handle401`, whose resubmission re-enters the dispatch
with one unit of fuel less.  Fuel only bounds the recursion; one unit
suffices for the single retry the interceptor can trigger. -/
def clientDispatch (net : RequestConfig → NetOutcome) (refreshNet : RefreshNet) :
    Nat → ClientState → RequestConfig → DispatchResult × ClientState
  | fuel, st, config =>
    let sent := requestInterceptor st.jar config
    match net sent with
    | .ok resp => (.ok resp, st)
    | .err status =>
      match fuel with
      | 0 => (.err (.http ⟨status, sent⟩), st)
      | fuel + 1 =>
          handle401 (clientDispatch net refreshNet fuel) refreshNet st ⟨status, sent⟩

/-- The config of the refresh POST that refreshToken issues through the
intercepted client: fresh config, retry flag unset, default JSON content
type.  The request body holding the refresh token is not modelled because
no interceptor logic reads it. -/
def refreshRequest : RequestConfig :=
  ⟨"POST", "/auth/token/refresh/", false, ⟨none, some "application/json", []⟩⟩

mutual

/-- Full model of one dispatch through the client in which, faithfully to
the source, the refresh POST of the 401 branch travels through this same
intercepted client (mutual recursion with `refreshTokenFull`).  The fuel
bounds the recursion depth: none means the run did not complete within
the budget, and a run that is none for every budget never completes at
all.  Apart from routing the refresh through the interceptors, the
branches are those of `clientDispatch` and `handle401`. -/
def clientDispatchFull (net : RequestConfig → NetOutcome) :
    Nat → ClientState → RequestConfig → Option (DispatchResult × ClientState)
  | 0, _, _ => none
  | fuel + 1, st, config =>
    let sent := requestInterceptor st.jar config
    match net sent with
    | .ok resp => some (.ok resp, st)
    | .err status =>
      if status = some 401 ∧ sent.retry = false then
        match refreshTokenFull net fuel
            { st with refreshCalls := st.refreshCalls + 1 } with
        | none => none
        | some (.ok _, st1) =>
            clientDispatchFull net fuel
              { st1 with resubmissions := st1.resubmissions + 1 }
              { sent with
                  retry := true,
                  headers := { sent.headers with
                    authorization := some ("Bearer " ++
                      tokenToString (getAccessToken st1.jar)) } }
        | some (.error e, st1) =>
            some (.err (.refresh e),
              { st1 with
                  jar := logout st1.jar,
                  locationHref := some "/login" })
      else some (.err (.http ⟨status, sent⟩), st)

/-- Full model of refreshToken in which the POST to /auth/token/refresh/
goes through the intercepted client, as the source does; for a completed
POST the response body stands for the access field of the refresh
payload.  A completed rejection of the POST surfaces as the thrown error,
modelled as the refresh-rejected outcome. -/
def refreshTokenFull (net : RequestConfig → NetOutcome) :
    Nat → ClientState → Option (Except RefreshError Unit × ClientState)
  | 0, _ => none
  | fuel + 1, st =>
    match getRefreshToken st.jar with
    | none => some (.error .noRefreshToken, st)
    | some _ =>
      match clientDispatchFull net fuel st refreshRequest with
      | none => none
      | some (.ok resp, st1) =>
          match getRefreshToken st1.jar with
          | some currentRefreshToken =>
              some (.ok (),
                { st1 with jar := setTokens resp.body currentRefreshToken st1.jar })
          | none => some (.ok (), st1)
      | some (.err _, st1) => some (.error .refreshRejected, st1)

end

/-- A file handed to the upload methods (contents abstracted). -/
structure FileModel where
  name : String
  bytes : List Nat
deriving Repr, DecidableEq

/-- An invoice as returned by the backend; the client treats it as opaque,
so only representative fields are modelled. -/
structure Invoice where
  id : Nat
  status : String
deriving Repr, DecidableEq

/-- The response envelope of the upload endpoint: the body has a single
invoice field. -/
structure InvoiceEnvelope where
  invoice : Invoice
deriving Repr, DecidableEq

/-- A multipart POST request as built by the upload methods: method, url,
the explicit Content-Type header and the form-data fields. -/
structure UploadRequest where
  method : String
  url : String
  contentType : Option String
  formData : List (String × FileModel)
deriving Repr, DecidableEq

/-- Observable run of `uploadInvoice`: the request it issued and the value
it returned or the rejection it propagated. -/
structure UploadRun where
  request : UploadRequest
  result : Except Rejection Invoice
deriving Repr

/-- `uploadInvoice` of the client: builds a FormData with the single field
image holding the file, POSTs it to /invoices/upload/ with Content-Type
multipart/form-data (outcome given by the oracle `post`), and on success
returns the invoice field of the response body. -/
def uploadInvoice (post : UploadRequest → Except Rejection InvoiceEnvelope)
    (file : FileModel) : UploadRun :=
  let formData : List (String × FileModel) := [("image", file)]
  let request : UploadRequest :=
    ⟨"POST", "/invoices/upload/", some "multipart/form-data", formData⟩
  match post request with
  | .ok envelope => ⟨request, .ok envelope.invoice⟩
  | .error e => ⟨request, .error e⟩

/-! Helper lemmas shared by several claim proofs. -/

theorem orNull_eq_some {o : Option String} {s : String} :
    orNull o = some s ↔ o = some s ∧ s ≠ "" := by
  constructor
  · intro h
    match o, h with
    | some t, h =>
      simp only [orNull] at h
      by_cases ht : t = ""
      · rw [if_pos ht] at h
        exact Option.noConfusion h
      · rw [if_neg ht] at h
        injection h with h2
        subst h2
        exact ⟨rfl, ht⟩
  · rintro ⟨rfl, hs⟩
    simp [orNull, hs]

theorem requestInterceptor_retry (jar : CookieJar) (cfg : RequestConfig) :
    (requestInterceptor jar cfg).retry = cfg.retry := by
  unfold requestInterceptor
  cases getAccessToken jar <;> simp

/-- A dispatch whose config already has the retry flag set never touches the
client state: any error it meets is passed through by the interceptor. -/
theorem clientDispatch_retried_state (net : RequestConfig → NetOutcome)
    (rn : RefreshNet) (fuel : Nat) (st : ClientState) (cfg : RequestConfig)
    (h : cfg.retry = true) :
    (clientDispatch net rn fuel st cfg).2 = st := by
  unfold clientDispatch
  cases hn : net (requestInterceptor st.jar cfg) with
  | ok resp => simp [hn]
  | err status =>
    cases fuel with
    | zero => simp [hn]
    | succ fuel =>
      have hretry : (requestInterceptor st.jar cfg).retry = true := by
        rw [requestInterceptor_retry]; exact h
      simp only [hn]
      unfold handle401
      split
      next hcond =>
        obtain ⟨-, hc⟩ := hcond
        dsimp only at hc
        rw [hretry] at hc
        exact Bool.noConfusion hc
      next hcond => rfl

/-- C3: the request interceptor reads the stored access token; when it is
present the Authorization header is set to Bearer followed by the token,
and when it is absent the config (headers included) passes through
unmodified. -/
theorem requestInterceptor_bearer_or_untouched (jar : CookieJar)
    (cfg : RequestConfig) :
    (∀ t, getAccessToken jar = some t →
      requestInterceptor jar cfg =
        { cfg with headers :=
            { cfg.headers with authorization := some ("Bearer " ++ t) } }) ∧
    (getAccessToken jar = none → requestInterceptor jar cfg = cfg) := by
  constructor
  · intro t ht
    unfold requestInterceptor
    rw [ht]
  · intro hn
    unfold requestInterceptor
    rw [hn]

/-- Witness for C3 at a present and at an absent token. -/
theorem requestInterceptor_bearer_or_untouched_check :
    requestInterceptor ⟨some "A1", none⟩ ⟨"GET", "/auth/profile/", false, ⟨none, none, []⟩⟩ =
      ⟨"GET", "/auth/profile/", false, ⟨some "Bearer A1", none, []⟩⟩ ∧
    requestInterceptor ⟨none, none⟩ ⟨"GET", "/auth/profile/", false, ⟨none, none, []⟩⟩ =
      ⟨"GET", "/auth/profile/", false, ⟨none, none, []⟩⟩ :=
  ⟨(requestInterceptor_bearer_or_untouched ⟨some "A1", none⟩
      ⟨"GET", "/auth/profile/", false, ⟨none, none, []⟩⟩).1 "A1" (by decide),
   (requestInterceptor_bearer_or_untouched ⟨none, none⟩
      ⟨"GET", "/auth/profile/", false, ⟨none, none, []⟩⟩).2 (by decide)⟩

/-- C5: when no refresh token is stored, refreshToken fails with the
no-refresh-token error, issues zero network requests and leaves the jar
unchanged. -/
theorem refreshToken_absent_no_network (net : RefreshNet) (jar : CookieJar)
    (h : getRefreshToken jar = none) :
    refreshToken net jar = ⟨.error .noRefreshToken, jar, 0⟩ := by
  unfold refreshToken
  rw [h]

/-- Witness for C5 on the empty jar. -/
theorem refreshToken_absent_no_network_check :
    refreshToken .failure emptyJar = ⟨.error .noRefreshToken, emptyJar, 0⟩ :=
  refreshToken_absent_no_network .failure emptyJar (by decide)

/-- C6: a successful refresh performs setTokens of the new access token
with the pre-call refresh token; afterwards the access cookie holds the
new access token and getRefreshToken reads the same value as before. -/
theorem refreshToken_success_keeps_refresh (a r : String) (jar : CookieJar)
    (h : getRefreshToken jar = some r) :
    refreshToken (.success a) jar = ⟨.ok (), setTokens a r jar, 1⟩ ∧
    (setTokens a r jar).access_token = some a ∧
    getRefreshToken (setTokens a r jar) = getRefreshToken jar := by
  have hr : r ≠ "" := ((orNull_eq_some).1 h).2
  refine ⟨?_, rfl, ?_⟩
  · unfold refreshToken
    rw [h]
  · rw [h]
    unfold getRefreshToken setTokens
    simp [orNull, hr]

/-- Witness for C6 with concrete tokens. -/
theorem refreshToken_success_keeps_refresh_check :
    refreshToken (.success "A2") ⟨some "A1", some "R1"⟩ =
      ⟨.ok (), setTokens "A2" "R1" ⟨some "A1", some "R1"⟩, 1⟩ ∧
    (setTokens "A2" "R1" ⟨some "A1", some "R1"⟩).access_token = some "A2" ∧
    getRefreshToken (setTokens "A2" "R1" ⟨some "A1", some "R1"⟩) =
      getRefreshToken ⟨some "A1", some "R1"⟩ :=
  refreshToken_success_keeps_refresh "A2" "R1" ⟨some "A1", some "R1"⟩ (by decide)

/-- Counterexample to C8 as stated: with the empty string as access token,
setTokens followed by getAccessToken yields none, not the stored value,
because cookie reads coerce the empty string to null. -/
theorem setTokens_roundtrip_fails_on_empty :
    ¬ (∀ (a r : String) (jar : CookieJar),
        getAccessToken (setTokens a r jar) = some a ∧
        getRefreshToken (setTokens a r jar) = some r) := by
  intro h
  exact absurd (h "" "R1" emptyJar).1 (by decide)

/-- C8 (amended): for all nonempty token values a and r, setTokens a r
followed by getAccessToken and getRefreshToken yields a and r. -/
theorem setTokens_roundtrip (a r : String) (jar : CookieJar)
    (ha : a ≠ "") (hr : r ≠ "") :
    getAccessToken (setTokens a r jar) = some a ∧
    getRefreshToken (setTokens a r jar) = some r := by
  unfold getAccessToken getRefreshToken setTokens
  simp [orNull, ha, hr]

/-- Witness for the amended C8 with concrete nonempty tokens. -/
theorem setTokens_roundtrip_check :
    getAccessToken (setTokens "A1" "R1" emptyJar) = some "A1" ∧
    getRefreshToken (setTokens "A1" "R1" emptyJar) = some "R1" :=
  setTokens_roundtrip "A1" "R1" emptyJar (by decide) (by decide)

/-- C4: any error that is not a 401-on-first-attempt (non-401 status, or
retry flag already set) is rejected unchanged by the response interceptor,
with the client state (session included) unmodified and no refresh
triggered. -/
theorem handle401_passthrough
    (resubmit : ClientState → RequestConfig → DispatchResult × ClientState)
    (rn : RefreshNet) (st : ClientState) (e : AxiosError)
    (h : e.status ≠ some 401 ∨ e.config.retry = true) :
    handle401 resubmit rn st e = (.err (.http e), st) := by
  unfold handle401
  split
  next hcond =>
    obtain ⟨h1, h2⟩ := hcond
    exfalso
    cases h with
    | inl hs => exact hs h1
    | inr hr =>
        rw [h2] at hr
        exact Bool.noConfusion hr
  next => rfl

/-- Witness for C4 at a 500 error. -/
theorem handle401_passthrough_check :
    handle401 (fun s _ => (.err (.refresh .noRefreshToken), s)) .failure
        ⟨emptyJar, 0, 0, 0, none⟩
        ⟨some 500, ⟨"GET", "/wallet/stats/", false, ⟨none, none, []⟩⟩⟩ =
      (.err (.http ⟨some 500, ⟨"GET", "/wallet/stats/", false, ⟨none, none, []⟩⟩⟩),
       ⟨emptyJar, 0, 0, 0, none⟩) :=
  handle401_passthrough _ _ _ _ (Or.inl (by decide))

/-- C1: a 401 on a request whose retry flag is false, when a refresh token
is stored and the refresh succeeds with a new access token, makes the
dispatch set the retry flag, run exactly one refresh, overwrite the
Authorization header from the re-read access token, resubmit once through
the same executor and return that result; the final counters show exactly
one refresh and one resubmission whatever the resubmission outcome. -/
theorem dispatch_401_first_attempt (net : RequestConfig → NetOutcome)
    (a r : String) (fuel : Nat) (st : ClientState) (cfg : RequestConfig)
    (hretry : cfg.retry = false)
    (hrt : getRefreshToken st.jar = some r)
    (h401 : net (requestInterceptor st.jar cfg) = .err (some 401)) :
    clientDispatch net (.success a) (fuel + 1) st cfg =
      clientDispatch net (.success a) fuel
        { st with
            jar := setTokens a r st.jar,
            refreshCalls := st.refreshCalls + 1,
            refreshNetRequests := st.refreshNetRequests + 1,
            resubmissions := st.resubmissions + 1 }
        { requestInterceptor st.jar cfg with
            retry := true,
            headers := { (requestInterceptor st.jar cfg).headers with
              authorization := some ("Bearer " ++
                tokenToString (getAccessToken (setTokens a r st.jar))) } } ∧
    (clientDispatch net (.success a) (fuel + 1) st cfg).2.refreshCalls
      = st.refreshCalls + 1 ∧
    (clientDispatch net (.success a) (fuel + 1) st cfg).2.resubmissions
      = st.resubmissions + 1 := by
  have hrr : refreshToken (.success a) st.jar = ⟨.ok (), setTokens a r st.jar, 1⟩ := by
    unfold refreshToken
    rw [hrt]
  have hsentretry : (requestInterceptor st.jar cfg).retry = false := by
    rw [requestInterceptor_retry]
    exact hretry
  have key : clientDispatch net (.success a) (fuel + 1) st cfg =
      clientDispatch net (.success a) fuel
        { st with
            jar := setTokens a r st.jar,
            refreshCalls := st.refreshCalls + 1,
            refreshNetRequests := st.refreshNetRequests + 1,
            resubmissions := st.resubmissions + 1 }
        { requestInterceptor st.jar cfg with
            retry := true,
            headers := { (requestInterceptor st.jar cfg).headers with
              authorization := some ("Bearer " ++
                tokenToString (getAccessToken (setTokens a r st.jar))) } } := by
    conv_lhs => rw [clientDispatch]
    simp only [h401, handle401, hsentretry, hrr, if_pos, and_true, and_self]
  refine ⟨key, ?_, ?_⟩
  · rw [key, clientDispatch_retried_state _ _ _ _ _ rfl]
  · rw [key, clientDispatch_retried_state _ _ _ _ _ rfl]

/-- Witness for C1: a concrete 401-then-success network, session with both
tokens, one retry observed. -/
theorem dispatch_401_first_attempt_check :
    (clientDispatch (fun c => if c.retry then .ok ⟨200, "ok"⟩ else .err (some 401))
        (.success "A2") (0 + 1) ⟨⟨some "A1", some "R1"⟩, 0, 0, 0, none⟩
        ⟨"GET", "/auth/profile/", false, ⟨none, none, []⟩⟩ =
      clientDispatch (fun c => if c.retry then .ok ⟨200, "ok"⟩ else .err (some 401))
        (.success "A2") 0
        ⟨⟨some "A2", some "R1"⟩, 1, 1, 1, none⟩
        ⟨"GET", "/auth/profile/", true, ⟨some "Bearer A2", none, []⟩⟩) ∧
    (clientDispatch (fun c => if c.retry then .ok ⟨200, "ok"⟩ else .err (some 401))
        (.success "A2") (0 + 1) ⟨⟨some "A1", some "R1"⟩, 0, 0, 0, none⟩
        ⟨"GET", "/auth/profile/", false, ⟨none, none, []⟩⟩).2.refreshCalls = 0 + 1 ∧
    (clientDispatch (fun c => if c.retry then .ok ⟨200, "ok"⟩ else .err (some 401))
        (.success "A2") (0 + 1) ⟨⟨some "A1", some "R1"⟩, 0, 0, 0, none⟩
        ⟨"GET", "/auth/profile/", false, ⟨none, none, []⟩⟩).2.resubmissions = 0 + 1 :=
  dispatch_401_first_attempt _ "A2" "R1" 0 _ _ rfl (by rfl) (by rfl)

/-- C10: when the refresh inside 401 handling succeeds but the re-read
access token is absent, the Authorization header of the resubmitted
request is still overwritten, with the literal string Bearer null, and the
resubmission proceeds unconditionally through the executor. -/
theorem handle401_bearer_null
    (resubmit : ClientState → RequestConfig → DispatchResult × ClientState)
    (rn : RefreshNet) (st : ClientState) (e : AxiosError)
    (h401 : e.status = some 401) (hretry : e.config.retry = false)
    (hok : (refreshToken rn st.jar).outcome = .ok ())
    (habsent : getAccessToken (refreshToken rn st.jar).jar = none) :
    handle401 resubmit rn st e =
      resubmit
        { st with
            jar := (refreshToken rn st.jar).jar,
            refreshCalls := st.refreshCalls + 1,
            refreshNetRequests :=
              st.refreshNetRequests + (refreshToken rn st.jar).netRequests,
            resubmissions := st.resubmissions + 1 }
        { e.config with
            retry := true,
            headers := { e.config.headers with
              authorization := some "Bearer null" } } := by
  have hb : "Bearer " ++ "null" = "Bearer null" := rfl
  unfold handle401
  rw [if_pos ⟨h401, hretry⟩]
  simp only [hok, habsent, tokenToString, hb]

/-- Witness for C10: the backend issues an empty access token, which reads
back as absent; the resubmitted request carries Bearer null. -/
theorem handle401_bearer_null_check :
    handle401 (fun s c => (.err (.http ⟨none, c⟩), s)) (.success "")
        ⟨⟨some "A1", some "R1"⟩, 0, 0, 0, none⟩
        ⟨some 401, ⟨"GET", "/wallet/products/", false, ⟨some "Bearer A1", none, []⟩⟩⟩ =
      (.err (.http ⟨none, ⟨"GET", "/wallet/products/", true,
        ⟨some "Bearer null", none, []⟩⟩⟩),
       ⟨⟨some "", some "R1"⟩, 1, 1, 1, none⟩) :=
  handle401_bearer_null _ (.success "") _ _ rfl rfl (by rfl) (by rfl)

/-- C9: uploadInvoice issues a POST to /invoices/upload/ with Content-Type
multipart/form-data carrying the file in the single form field image, and
on success returns the invoice field of the response envelope, not the
whole body. -/
theorem uploadInvoice_request_and_envelope
    (post : UploadRequest → Except Rejection InvoiceEnvelope) (file : FileModel) :
    (uploadInvoice post file).request =
      ⟨"POST", "/invoices/upload/", some "multipart/form-data", [("image", file)]⟩ ∧
    (∀ envelope, post (uploadInvoice post file).request = .ok envelope →
      (uploadInvoice post file).result = .ok envelope.invoice) := by
  have hreq : (uploadInvoice post file).request =
      ⟨"POST", "/invoices/upload/", some "multipart/form-data", [("image", file)]⟩ := by
    unfold uploadInvoice
    dsimp only
    cases post ⟨"POST", "/invoices/upload/", some "multipart/form-data",
      [("image", file)]⟩ <;> rfl
  refine ⟨hreq, ?_⟩
  intro envelope hpost
  rw [hreq] at hpost
  unfold uploadInvoice
  dsimp only
  rw [hpost]

/-- Witness for C9 on a concrete file and a backend returning a concrete
envelope. -/
theorem uploadInvoice_request_and_envelope_check :
    (uploadInvoice (fun _ => .ok ⟨⟨7, "pending"⟩⟩) ⟨"receipt.jpg", [1, 2]⟩).request =
      ⟨"POST", "/invoices/upload/", some "multipart/form-data",
        [("image", ⟨"receipt.jpg", [1, 2]⟩)]⟩ ∧
    (uploadInvoice (fun _ => .ok ⟨⟨7, "pending"⟩⟩) ⟨"receipt.jpg", [1, 2]⟩).result =
      .ok ⟨7, "pending"⟩ :=
  ⟨(uploadInvoice_request_and_envelope (fun _ => .ok ⟨⟨7, "pending"⟩⟩)
      ⟨"receipt.jpg", [1, 2]⟩).1,
   (uploadInvoice_request_and_envelope (fun _ => .ok ⟨⟨7, "pending"⟩⟩)
      ⟨"receipt.jpg", [1, 2]⟩).2 ⟨⟨7, "pending"⟩⟩ rfl⟩

/-- Core of the refresh recursion bug: against a backend that answers 401
to every request, a dispatch of any unretried request and a refresh both
fail to complete within any recursion budget, because the 401 branch
re-invokes refreshToken whose POST re-enters the interceptor with a fresh
retry flag. -/
theorem net401_loop (fuel : Nat) :
    (∀ (st : ClientState) (cfg : RequestConfig), cfg.retry = false →
      getRefreshToken st.jar ≠ none →
      clientDispatchFull (fun _ => .err (some 401)) fuel st cfg = none) ∧
    (∀ st : ClientState, getRefreshToken st.jar ≠ none →
      refreshTokenFull (fun _ => .err (some 401)) fuel st = none) := by
  induction fuel with
  | zero => exact ⟨fun _ _ _ _ => rfl, fun _ _ => rfl⟩
  | succ fuel ih =>
    refine ⟨?_, ?_⟩
    · intro st cfg hr hj
      have hsent : (requestInterceptor st.jar cfg).retry = false := by
        rw [requestInterceptor_retry]
        exact hr
      unfold clientDispatchFull
      dsimp only
      rw [if_pos ⟨rfl, hsent⟩]
      rw [ih.2 { st with refreshCalls := st.refreshCalls + 1 } hj]
    · intro st hj
      cases hg : getRefreshToken st.jar with
      | none => exact absurd hg hj
      | some r =>
        unfold refreshTokenFull
        rw [hg]
        rw [ih.1 st refreshRequest rfl hj]

/-- C7 (code bug): when the backend rejects the refresh POST with HTTP
401 — the canonical rejection, spec scenario 3 — refreshToken never fails
and never completes: its POST goes through the intercepted client, whose
401 branch re-invokes refreshToken with a fresh retry flag on every
nested POST, so the run exhausts every recursion budget instead of
surfacing the refresh-rejected error with the session untouched. -/
theorem refreshToken_rejected_401_diverges (fuel : Nat) (st : ClientState)
    (r : String) (h : getRefreshToken st.jar = some r) :
    refreshTokenFull (fun _ => .err (some 401)) fuel st = none :=
  (net401_loop fuel).2 st (by rw [h]; exact fun hc => Option.noConfusion hc)

/-- Witness for the C7 divergence at a concrete session and budget. -/
theorem refreshToken_rejected_401_diverges_check :
    refreshTokenFull (fun _ => .err (some 401)) 5
      ⟨⟨some "A1", some "R1"⟩, 0, 0, 0, none⟩ = none :=
  refreshToken_rejected_401_diverges 5 _ "R1" (by rfl)

/-- C2 (code bug): when the original request gets a 401 and the backend
also answers 401 to the refresh POST, the dispatch never completes for
any recursion budget: the session is never cleared, no navigation to
/login ever happens and no rejection reaches the caller, contrary to the
claim that refresh rejection clears the session and signals a hard
sign-out. -/
theorem dispatch_401_refresh_401_diverges (fuel : Nat) (st : ClientState)
    (cfg : RequestConfig) (r : String) (hr : cfg.retry = false)
    (h : getRefreshToken st.jar = some r) :
    clientDispatchFull (fun _ => .err (some 401)) fuel st cfg = none :=
  (net401_loop fuel).1 st cfg hr (by rw [h]; exact fun hc => Option.noConfusion hc)

/-- Witness for the C2 divergence at a concrete request, session and
budget. -/
theorem dispatch_401_refresh_401_diverges_check :
    clientDispatchFull (fun _ => .err (some 401)) 5
      ⟨⟨some "A1", some "R1"⟩, 0, 0, 0, none⟩
      ⟨"GET", "/auth/profile/", false, ⟨none, none, []⟩⟩ = none :=
  dispatch_401_refresh_401_diverges 5 _ _ "R1" rfl (by rfl)

end PointWallet
